import Mathlib

/-!
Shallow embedding of the authentication / contact-ownership core of the
address-book service (FastAPI + SQLAlchemy repository layer).

Source files embedded:

* src/entity/models.py        — the User and Contact rows
* src/repository/users.py     — get_user_by_email, update_token,
                                verification_email
* src/repository/contacts.py  — contact CRUD and the upcoming-birthday query
* src/routes/auth.py          — login, refresh_token, confirmed_email,
                                request_email
* src/routes/contacts.py      — the contact endpoints

The database is modelled as explicit state (`DB`) threaded through each
operation; an HTTP handler returns `Except ApiError result × DB`.  `ApiError`
mirrors the `HTTPException`s raised by the routes, with an extra `fault`
constructor for an uncaught Python exception (e.g. an `AttributeError` from
dereferencing `None`) escaping the handler.  Wall-clock time is passed
explicitly (`now : Nat` for row timestamps, a `Date` for the birthday query).

The token service (src/services/auth.py) is not part of the sources; where a
route calls it, the call is abstracted as a function argument, and a
payload-level Token Codec is modelled from the spec (see `TokenPayload`).
-/

namespace AddressBook

/-- A calendar date (`datetime.date`), proleptic Gregorian, year ≥ 1. -/
structure Date where
  year : Nat
  month : Nat
  day : Nat
deriving Repr, DecidableEq

/-- Row of the `users` table from src/entity/models.py.  Timestamps are
abstract ticks; `id` is the primary key, `email` has a unique index. -/
structure User where
  id : Nat
  username : String
  email : String
  password : String
  avatar : Option String
  verification : Bool
  refresh_token : Option String
  created_at : Nat
  updated_at : Nat
deriving Repr, DecidableEq

/-- Row of the `contacts` table from src/entity/models.py.  The `birthday`
column is a nullable string in `%Y-%m-%d` format; it is modelled as the
parsed `Option Date` (the repository converts both directions consistently
via `strftime`/`strptime`). -/
structure Contact where
  id : Nat
  first_name : String
  last_name : String
  email : String
  phone_number : String
  birthday : Option Date
  other : String
  user_id : Option Nat
  created_at : Nat
  updated_at : Nat
deriving Repr, DecidableEq

/-- The persistent store: the two tables, plus the autoincrement counter the
database uses to assign the next contact id. -/
structure DB where
  users : List User
  contacts : List Contact
  nextContactId : Nat
deriving Repr, DecidableEq

/-- Pydantic schema `ContactInput` (src/schemas/contact.py): the caller can
supply names, email, phone, birthday and a free-text `other` — there is no
owner field in the schema at all. -/
structure ContactInput where
  first_name : String
  last_name : String
  email : String
  phone_number : String
  birthday : Date
  other : String
deriving Repr, DecidableEq

/-- The `HTTPException`s raised by the routes (detail string included), plus
`fault` for an uncaught Python exception escaping a handler as a 500. -/
inductive ApiError where
  | conflict (detail : String)
  | unauthorized (detail : String)
  | badRequest (detail : String)
  | notFound (detail : String)
  | fault (detail : String)
deriving Repr, DecidableEq

/-- Response model `TokenSchema` (src/schemas/user.py). -/
structure TokenSchema where
  access_token : String
  refresh_token : String
  token_type : String
deriving Repr, DecidableEq

/-! Repository layer: users (src/repository/users.py). -/

/-- Embeds `get_user_by_email`: `select(User).filter_by(email=email)` then
`scalar_one_or_none()` — first row whose email matches, else `None`. -/
def get_user_by_email (email : String) (db : DB) : Option User :=
  db.users.find? (fun u => decide (u.email = email))

/-- Embeds `update_token`: sets `user.refresh_token = token` on the row of
the given user (rows are identified by the primary key `id`) and commits; the
ORM `onupdate=func.now()` bumps `updated_at` on the same commit. -/
def update_token (user : User) (token : Option String) (now : Nat) (db : DB) : DB :=
  { db with users := db.users.map (fun u =>
      if u.id = user.id then { u with refresh_token := token, updated_at := now } else u) }

/-- Embeds `verification_email`: looks the user up by email, sets
`user.verification = True` and commits (bumping `updated_at`).  (The Python
code would raise on an absent user; callers check existence first, and the
absent case leaves the store unchanged here.) -/
def verification_email (email : String) (now : Nat) (db : DB) : DB :=
  { db with users := db.users.map (fun u =>
      if u.email = email then { u with verification := true, updated_at := now } else u) }

/-! Repository layer: contacts (src/repository/contacts.py). -/

/-- Embeds `get_contacts`: `select(Contact).offset(offset).limit(limit)` — no
owner filter, no identity argument. -/
def get_contacts (limit offset : Nat) (db : DB) : List Contact :=
  (db.contacts.drop offset).take limit

/-- Embeds `get_contact_by_id`: `select(Contact).filter_by(id=contact_id)`
then `scalar_one_or_none()` — filters by id alone, never by owner. -/
def get_contact_by_id (contact_id : Nat) (db : DB) : Option Contact :=
  db.contacts.find? (fun c => decide (c.id = contact_id))

/-- Embeds `get_contacts_by_first_name`: filter by first name only. -/
def get_contacts_by_first_name (first_name : String) (db : DB) : List Contact :=
  db.contacts.filter (fun c => decide (c.first_name = first_name))

/-- Embeds `get_contacts_by_last_name`: filter by last name only. -/
def get_contacts_by_last_name (last_name : String) (db : DB) : List Contact :=
  db.contacts.filter (fun c => decide (c.last_name = last_name))

/-- Embeds `get_contact_by_email`: filter by contact email only. -/
def get_contact_by_email (email : String) (db : DB) : Option Contact :=
  db.contacts.find? (fun c => decide (c.email = email))

/-- Applying the six `ContactInput` fields to a row with `setattr`, as the
update loop does; committing bumps `updated_at`.  `id` and `user_id` are not
among the body keys and are untouched. -/
def applyContactInput (body : ContactInput) (now : Nat) (c : Contact) : Contact :=
  { c with first_name := body.first_name, last_name := body.last_name,
           email := body.email, phone_number := body.phone_number,
           birthday := some body.birthday, other := body.other, updated_at := now }

/-- Embeds the repository `create_contact`: builds a `Contact` from the body
with `user_id=user_id`, adds and commits; the database assigns the next id. -/
def create_contact (body : ContactInput) (user_id : Nat) (now : Nat) (db : DB) :
    Contact × DB :=
  let c : Contact :=
    { id := db.nextContactId, first_name := body.first_name,
      last_name := body.last_name, email := body.email,
      phone_number := body.phone_number, birthday := some body.birthday,
      other := body.other, user_id := some user_id,
      created_at := now, updated_at := now }
  (c, { db with contacts := db.contacts ++ [c], nextContactId := db.nextContactId + 1 })

/-- The ownership lookup used by update and delete:
`select(Contact).filter_by(id=contact_id, user_id=user_id)` — both predicates
in the one query. -/
def findOwnedContact (contact_id user_id : Nat) (db : DB) : Option Contact :=
  db.contacts.find? (fun c => decide (c.id = contact_id ∧ c.user_id = some user_id))

/-- Embeds the repository `update_contact`: single lookup filtered by
`(id, user_id)`; `None` (no write) when no row matches both, otherwise the
body fields are written onto the matching row (identified by its primary key)
and committed. -/
def update_contact (contact_id : Nat) (body : ContactInput) (user_id : Nat)
    (now : Nat) (db : DB) : Option Contact × DB :=
  match findOwnedContact contact_id user_id db with
  | none => (none, db)
  | some c =>
    let c' := applyContactInput body now c
    (some c', { db with contacts := db.contacts.map (fun x =>
        if x.id = c.id then c' else x) })

/-- Embeds the repository `delete_contact`: same single `(id, user_id)`
lookup; `None` when no row matches both, otherwise the found row (identified
by its primary key) is deleted. -/
def delete_contact (contact_id user_id : Nat) (db : DB) : Option Contact × DB :=
  match findOwnedContact contact_id user_id db with
  | none => (none, db)
  | some c =>
    (some c, { db with contacts := db.contacts.filter (fun x => decide (x.id ≠ c.id)) })

/-!
Token Codec (spec-modelled) and token-service abstraction.

The file src/services/auth.py is not among the sources; routes that call it
take the relevant operation as an explicit function argument.  For claims
about the codec itself it is modelled from the spec at the payload level.
-/

/-- The three token purposes (the `scope` claim). -/
inductive Scope where
  | access
  | refresh
  | email_verification
deriving Repr, DecidableEq

/-- Internal token-failure kinds of the codec (spec section 4.2). -/
inductive TokenError where
  | invalidToken
  | expiredToken
  | scopeMismatch
deriving Repr, DecidableEq

/-- Modelled from the spec: the claim set of a signed token issued by the
missing Token Codec (src/services/auth.py): subject (the user's email), scope
discriminator, issued-at and expiry instants.  The model works at the payload
level: a `TokenPayload` stands for a token string whose signature has already
been verified, so the `InvalidToken` arm (bad signature / malformed payload,
which only arises for strings never produced by `issue`) has no payload-level
representative. -/
structure TokenPayload where
  sub : String
  scope : Scope
  iat : Nat
  exp : Nat
deriving Repr, DecidableEq

/-- Modelled from the spec: `issue(subject, scope, ttl)` of the missing Token
Codec encodes `subject`, `scope`, `issued_at = now`, `expires_at = now + ttl`
into a signed token. -/
def issue (subject : String) (scope : Scope) (now ttl : Nat) : TokenPayload :=
  { sub := subject, scope := scope, iat := now, exp := now + ttl }

/-- Modelled from the spec: `decode(token, expected_scope)` of the missing
Token Codec verifies the signature (implicit at payload level), checks
`expires_at > now` failing with `ExpiredToken`, then checks
`scope == expected_scope` failing with `ScopeMismatch`, in that order (spec
section 4.2 lists the checks in sequence, and section 8 makes expiry win
regardless of scope correctness); on success it returns the subject. -/
def decode (t : TokenPayload) (expected : Scope) (now : Nat) :
    Except TokenError String :=
  if t.exp ≤ now then .error .expiredToken
  else if t.scope ≠ expected then .error .scopeMismatch
  else .ok t.sub

/-! Routes: auth (src/routes/auth.py). -/

/-- Handler for POST /auth/login.  `verify` abstracts
`auth_service.verify_password`; `createAccess`/`createRefresh` abstract the
token factories (each a function of the subject email).  Order of gates as in
the code: unknown email, then unverified, then bad password; on success both
tokens are issued and the refresh token persisted via `update_token`. -/
def login (verify : String → String → Bool) (createAccess createRefresh : String → String)
    (username password : String) (now : Nat) (db : DB) :
    Except ApiError TokenSchema × DB :=
  match get_user_by_email username db with
  | none => (.error (.unauthorized ("Invalid email")), db)
  | some user =>
    if !user.verification then (.error (.unauthorized ("Email not verification")), db)
    else if !(verify password user.password) then
      (.error (.unauthorized ("Invalid password")), db)
    else
      let access_token := createAccess user.email
      let refresh_tok := createRefresh user.email
      (.ok { access_token := access_token, refresh_token := refresh_tok,
             token_type := "bearer" },
       update_token user (some refresh_tok) now db)

/-- Handler for GET /auth/refresh_token.  `decodeRefresh` abstracts
`auth_service.decode_refresh_token` (missing from the sources; per the spec a
codec failure surfaces as `Unauthorized`).  The code then looks the user up
by the decoded email and immediately reads `user.refresh_token` without a
`None` check: an absent user is an `AttributeError` escaping the handler,
modelled as `ApiError.fault`.  A stored-token mismatch clears the stored
token and fails; otherwise a fresh pair is issued and the new refresh token
persisted. -/
def refresh_token_route (decodeRefresh : String → Except TokenError String)
    (createAccess createRefresh : String → String) (token : String) (now : Nat)
    (db : DB) : Except ApiError TokenSchema × DB :=
  match decodeRefresh token with
  | .error _ => (.error (.unauthorized ("Could not validate credentials")), db)
  | .ok email =>
    match get_user_by_email email db with
    | none =>
      (.error (.fault ("AttributeError: NoneType has no attribute refresh_token")), db)
    | some user =>
      if user.refresh_token ≠ some token then
        (.error (.unauthorized ("Invalid refresh token")), update_token user none now db)
      else
        let access_token := createAccess email
        let refresh_tok := createRefresh email
        (.ok { access_token := access_token, refresh_token := refresh_tok,
               token_type := "bearer" },
         update_token user (some refresh_tok) now db)

/-- Handler for GET /auth/confirmed_email/{token}.  `getEmail` abstracts
`auth_service.get_email_from_token` (missing from the sources; a codec
failure surfaces as `Unauthorized`).  Unknown user → 400; already verified →
the idempotent message with no write; otherwise `verification_email` commits
the flag. -/
def confirmed_email (getEmail : String → Except TokenError String) (token : String)
    (now : Nat) (db : DB) : Except ApiError String × DB :=
  match getEmail token with
  | .error _ => (.error (.unauthorized ("Invalid token for email verification")), db)
  | .ok email =>
    match get_user_by_email email db with
    | none => (.error (.badRequest ("Verification error")), db)
    | some user =>
      if user.verification then (.ok ("Your email is already confirmed"), db)
      else (.ok ("Email confirmed"), verification_email email now db)

/-- Handler for POST /auth/request_email.  The code reads `user.verification`
BEFORE its `if user:` guard, so an email matching no user dereferences `None`
(an `AttributeError` escaping the handler, modelled as `ApiError.fault`); an
already-verified user gets the idempotent message; otherwise the verification
mail is re-queued (an external side effect, not part of the store) and the
generic acknowledgment returned. -/
def request_email (email : String) (db : DB) : Except ApiError String × DB :=
  match get_user_by_email email db with
  | none =>
    (.error (.fault ("AttributeError: NoneType has no attribute verification")), db)
  | some user =>
    if user.verification then (.ok ("Your email is already verification"), db)
    else (.ok ("Check your email for confirmation."), db)

/-! Routes: contacts (src/routes/contacts.py). -/

/-- Handler for GET /api/contacts/id/{contact_id}: no bearer-token dependency
and no owner filter — the handler takes no identity at all; a missing id is a
404. -/
def get_contacts_by_id_route (contact_id : Nat) (db : DB) : Except ApiError Contact :=
  match get_contact_by_id contact_id db with
  | none => .error (.notFound ("Not found!"))
  | some c => .ok c

/-- Handler for POST /api/contacts/.  The handler body is
`try: contact = create_contact(...); return contact` /
`except: raise HTTPException(404, 'Not authorized!')` /
`finally: raise HTTPException(404, 'Not authorized!')`.
Python runs the try body to completion (the contact is persisted and the
return value set), then the finally clause raises, discarding the return:
the route can never answer 201, even though the row was committed with
`user_id = current_user.id`. -/
def create_contact_route (body : ContactInput) (current_user : User) (now : Nat)
    (db : DB) : Except ApiError Contact × DB :=
  let created := create_contact body current_user.id now db
  (.error (.notFound ("Not authorized!")), created.2)

/-- Handler for PUT /api/contacts/id/{contact_id}: requires the current user
(bearer token); a `None` from the repository becomes a 404. -/
def update_contact_route (contact_id : Nat) (body : ContactInput) (current_user : User)
    (now : Nat) (db : DB) : Except ApiError Contact × DB :=
  match update_contact contact_id body current_user.id now db with
  | (none, db') => (.error (.notFound ("Not found or not authorized!")), db')
  | (some c, db') => (.ok c, db')

/-- Handler for DELETE /api/contacts/id/{contact_id}: requires the current
user; a `None` from the repository becomes a 404. -/
def delete_contact_route (contact_id : Nat) (current_user : User) (db : DB) :
    Except ApiError String × DB :=
  match delete_contact contact_id current_user.id db with
  | (none, db') => (.error (.notFound ("Not found or not authorized!")), db')
  | (some _, db') => (.ok ("Contact deleted successfully"), db')

/-! The upcoming-birthday query (src/repository/contacts.py). -/

/-- Gregorian leap year, as `calendar.isleap`. -/
def isLeap (y : Nat) : Bool :=
  (y % 4 == 0 && y % 100 != 0) || y % 400 == 0

/-- Days in a month of a given year. -/
def daysInMonth (y m : Nat) : Nat :=
  if m = 2 then (if isLeap y then 29 else 28)
  else if m = 4 ∨ m = 6 ∨ m = 9 ∨ m = 11 then 30
  else 31

/-- Whether `(y, m, d)` is a real calendar date (`datetime.date` validity). -/
def validDate (y m d : Nat) : Bool :=
  1 ≤ m && m ≤ 12 && 1 ≤ d && d ≤ daysInMonth y m

/-- Day number of a date in the proleptic Gregorian calendar (days since
0000-03-01; valid for year ≥ 1), so that Python's `(d2 - d1).days` is
`(toDayNumber d2 : Int) - toDayNumber d1`. -/
def toDayNumber (dt : Date) : Nat :=
  let y := if dt.month ≤ 2 then dt.year - 1 else dt.year
  let mp := (dt.month + 9) % 12
  let doy := (153 * mp + 2) / 5 + dt.day - 1
  y * 365 + y / 4 - y / 100 + y / 400 + doy

/-- Models `birthday.replace(year=current_date.year)`: same month and day,
the current year.  (Python raises `ValueError` when that month/day does not
exist in the target year — `validDate` is checked by the caller.) -/
def replaceYear (year : Nat) (b : Date) : Date :=
  { year := year, month := b.month, day := b.day }

/-- Computes `days_until_birthday = (birthday_this_year - current_date).days`. -/
def daysUntilBirthday (today b : Date) : Int :=
  (toDayNumber (replaceYear today.year b) : Int) - (toDayNumber today : Int)

/-- The per-contact loop of `get_contacts_with_upcoming_birthdays`: a contact
is kept when `0 <= days_until_birthday <= 7`; a birthday whose month/day does
not exist in the current year makes `replace` raise `ValueError`, aborting
the whole request (modelled as `Except.error`). -/
def upcomingLoop (today : Date) : List Contact → Except String (List Contact)
  | [] => .ok []
  | c :: rest =>
    match c.birthday with
    | none => upcomingLoop today rest
    | some b =>
      if validDate today.year b.month b.day then
        match upcomingLoop today rest with
        | .error e => .error e
        | .ok tail =>
          if 0 ≤ daysUntilBirthday today b ∧ daysUntilBirthday today b ≤ 7 then
            .ok (c :: tail)
          else .ok tail
      else .error ("ValueError: day is out of range for month")

/-- Embeds `get_contacts_with_upcoming_birthdays`: select the contacts whose
`birthday` is not NULL, then keep those with
`0 <= (birthday.replace(year=current_year) - current_date).days <= 7`.
`today` is `datetime.now().date()` passed explicitly. -/
def get_contacts_with_upcoming_birthdays (today : Date) (db : DB) :
    Except String (List Contact) :=
  upcomingLoop today (db.contacts.filter (fun c => c.birthday.isSome))

/-! Concrete sample data used by witnesses and counterexamples. -/

/-- A verified user with an active session. -/
def userAlice : User :=
  { id := 1, username := "alice", email := "alice@example.com",
    password := "hash-a", avatar := none, verification := true,
    refresh_token := some ("stored-refresh"), created_at := 0, updated_at := 0 }

/-- An unverified user with no active session. -/
def userBella : User :=
  { id := 2, username := "bella", email := "bella@example.com",
    password := "hash-b", avatar := none, verification := false,
    refresh_token := none, created_at := 0, updated_at := 0 }

/-- A contact owned by `userAlice` (user id 1). -/
def contactCarl : Contact :=
  { id := 10, first_name := "Carl", last_name := "Stone",
    email := "carl@example.com", phone_number := "555-0100",
    birthday := some { year := 1990, month := 5, day := 20 },
    other := "friend", user_id := some 1, created_at := 0, updated_at := 0 }

/-- A store with the two users and Alice's contact. -/
def sampleDB : DB :=
  { users := [userAlice, userBella], contacts := [contactCarl], nextContactId := 11 }

/-- A valid request body for contact creation/update. -/
def bodyInput : ContactInput :=
  { first_name := "John", last_name := "Doe", email := "john@example.com",
    phone_number := "555-0101", birthday := { year := 2000, month := 1, day := 2 },
    other := "colleague" }

/-- A password check accepting exactly the pair used by the witnesses. -/
def verifyStub (plain hashed : String) : Bool :=
  decide (plain = "pw" ∧ hashed = "hash-a")

/-- A token factory returning a fixed fresh token. -/
def createStub (_email : String) : String :=
  "fresh-token"

/-- A refresh-token decoder accepting exactly one token string, for Alice. -/
def decodeStub (s : String) : Except TokenError String :=
  if s = "tok-r" then .ok ("alice@example.com") else .error .invalidToken

/-- An email-verification token decoder accepting exactly one token string. -/
def getEmailStub (s : String) : Except TokenError String :=
  if s = "tok-v" then .ok ("alice@example.com") else .error .invalidToken

/-- A contact with an early-January birthday, and its one-contact store. -/
def contactJan : Contact :=
  { id := 20, first_name := "Jana", last_name := "Frost",
    email := "jana@example.com", phone_number := "555-0102",
    birthday := some { year := 2000, month := 1, day := 2 },
    other := "friend", user_id := some 1, created_at := 0, updated_at := 0 }

/-- A store holding only `contactJan`. -/
def dbJan : DB :=
  { users := [], contacts := [contactJan], nextContactId := 21 }

/-- A late-December query date. -/
def dateDec : Date :=
  { year := 2023, month := 12, day := 28 }

/-! Shared helper lemmas. -/

/-- In a list whose keys under `f` are distinct, `find?` on the key of a
member returns exactly that member. -/
lemma find?_key_of_nodup {α β : Type} [DecidableEq β] (f : α → β) (l : List α) (c : α)
    (hnd : (l.map f).Nodup) (hmem : c ∈ l) :
    l.find? (fun x => decide (f x = f c)) = some c := by
  cases hfind : l.find? (fun x => decide (f x = f c)) with
  | none =>
    exfalso
    have := List.find?_eq_none.mp hfind c hmem
    simp at this
  | some x =>
    have hx : x ∈ l := List.mem_of_find?_eq_some hfind
    have hfx : f x = f c := by
      have := List.find?_some hfind
      simpa using this
    have := List.inj_on_of_nodup_map hnd hx hmem hfx
    rw [this]

/-- Looking a user up by email after `update_token` finds the same row,
updated when its id matches (the update does not change any email). -/
lemma get_user_by_email_update_token (e : String) (user : User) (tok : Option String)
    (now : Nat) (db : DB) :
    get_user_by_email e (update_token user tok now db) =
      (get_user_by_email e db).map (fun u =>
        if u.id = user.id then { u with refresh_token := tok, updated_at := now } else u) := by
  show (db.users.map _).find? _ = _
  rw [List.find?_map]
  have hp : ((fun u => decide (u.email = e)) ∘ fun u =>
      if u.id = user.id then { u with refresh_token := tok, updated_at := now } else u)
      = (fun u : User => decide (u.email = e)) := by
    funext u
    by_cases h : u.id = user.id <;> simp [Function.comp, h]
  rw [hp]
  rfl

/-- C1.  For every contact owned by user A and every acting user B with a
different id, both the update route and the delete route answer 404
`NotFound` and leave the whole store — in particular every stored field of
the contact — unchanged: the repository lookup filters by
`(id, user_id)` in a single query, so no row matches. -/
theorem update_delete_cross_owner_notFound
    (db : DB) (c : Contact) (a : Nat) (userB : User) (body : ContactInput) (now : Nat)
    (hids : (db.contacts.map Contact.id).Nodup) (hmem : c ∈ db.contacts)
    (hown : c.user_id = some a) (hne : userB.id ≠ a) :
    update_contact_route c.id body userB now db =
      (Except.error (ApiError.notFound ("Not found or not authorized!")), db)
    ∧ delete_contact_route c.id userB db =
      (Except.error (ApiError.notFound ("Not found or not authorized!")), db) := by
  have hfind : findOwnedContact c.id userB.id db = none := by
    rw [findOwnedContact, List.find?_eq_none]
    intro x hx
    simp only [decide_eq_true_eq, not_and]
    intro hid hxu
    have hxc : x = c := List.inj_on_of_nodup_map hids hx hmem hid
    rw [hxc, hown] at hxu
    exact hne (Option.some.inj hxu).symm
  constructor
  · simp [update_contact_route, update_contact, hfind]
  · simp [delete_contact_route, delete_contact, hfind]

/-- Witness for C1: Bella (id 2) can neither update nor delete Alice's
contact (id 10, owned by user 1); the store is untouched. -/
theorem update_delete_cross_owner_notFound_witness :
    update_contact_route 10 bodyInput userBella 7 sampleDB =
      (Except.error (ApiError.notFound ("Not found or not authorized!")), sampleDB)
    ∧ delete_contact_route 10 userBella sampleDB =
      (Except.error (ApiError.notFound ("Not found or not authorized!")), sampleDB) :=
  update_delete_cross_owner_notFound sampleDB contactCarl 1 userBella bodyInput 7
    (by decide) (by decide) (by decide) (by decide)

/-- C2.  If a presented refresh token decodes (with refresh scope) to the
email of an existing user whose stored `refresh_token` differs from the
presented string, the refresh route clears the stored token (null) and fails
`Unauthorized`; a second refresh attempt presenting the same token against
the resulting store also fails `Unauthorized`. -/
theorem refresh_mismatch_revokes
    (decodeRefresh : String → Except TokenError String)
    (cA cR : String → String) (t : String) (now now2 : Nat) (db : DB) (u : User)
    (hdec : decodeRefresh t = Except.ok u.email)
    (hu : get_user_by_email u.email db = some u)
    (hne : u.refresh_token ≠ some t) :
    refresh_token_route decodeRefresh cA cR t now db =
      (Except.error (ApiError.unauthorized ("Invalid refresh token")),
        update_token u none now db)
    ∧ get_user_by_email u.email (update_token u none now db) =
        some { u with refresh_token := none, updated_at := now }
    ∧ (refresh_token_route decodeRefresh cA cR t now2 (update_token u none now db)).1 =
        Except.error (ApiError.unauthorized ("Invalid refresh token")) := by
  have h2 : get_user_by_email u.email (update_token u none now db) =
      some { u with refresh_token := none, updated_at := now } := by
    rw [get_user_by_email_update_token, hu]
    simp
  refine ⟨?_, h2, ?_⟩
  · simp [refresh_token_route, hdec, hu, hne]
  · simp [refresh_token_route, hdec, h2]

/-- Witness for C2: the decoder accepts the presented token for Alice, whose
stored token is a different string; both the first and the repeated refresh
fail and the stored token is nulled. -/
theorem refresh_mismatch_revokes_witness :
    refresh_token_route decodeStub createStub createStub ("tok-r") 3 sampleDB =
      (Except.error (ApiError.unauthorized ("Invalid refresh token")),
        update_token userAlice none 3 sampleDB)
    ∧ get_user_by_email userAlice.email (update_token userAlice none 3 sampleDB) =
        some { userAlice with refresh_token := none, updated_at := 3 }
    ∧ (refresh_token_route decodeStub createStub createStub ("tok-r") 4
        (update_token userAlice none 3 sampleDB)).1 =
        Except.error (ApiError.unauthorized ("Invalid refresh token")) :=
  refresh_mismatch_revokes decodeStub createStub createStub ("tok-r") 3 4 sampleDB userAlice
    (by rfl) (by decide) (by decide)

/-- C9.  If the presented refresh token decodes successfully but its subject
email matches no user, the refresh route dereferences `None`
(`None.refresh_token`), an `AttributeError` escaping the handler — it does
not fail with `Unauthorized`. -/
theorem refresh_unknown_subject_faults
    (decodeRefresh : String → Except TokenError String)
    (cA cR : String → String) (t : String) (now : Nat) (db : DB) (email : String)
    (hdec : decodeRefresh t = Except.ok email)
    (hnone : get_user_by_email email db = none) :
    refresh_token_route decodeRefresh cA cR t now db =
      (Except.error
        (ApiError.fault ("AttributeError: NoneType has no attribute refresh_token")), db)
    ∧ ∀ d, (refresh_token_route decodeRefresh cA cR t now db).1 ≠
        Except.error (ApiError.unauthorized d) := by
  constructor
  · simp [refresh_token_route, hdec, hnone]
  · intro d
    simp [refresh_token_route, hdec, hnone]

/-- Witness for C9: the decoder accepts the token for Alice's email against a
store with no users at all; the route faults instead of answering 401. -/
theorem refresh_unknown_subject_faults_witness :
    refresh_token_route decodeStub createStub createStub ("tok-r") 3 dbJan =
      (Except.error
        (ApiError.fault ("AttributeError: NoneType has no attribute refresh_token")), dbJan)
    ∧ ∀ d, (refresh_token_route decodeStub createStub createStub ("tok-r") 3 dbJan).1 ≠
        Except.error (ApiError.unauthorized d) :=
  refresh_unknown_subject_faults decodeStub createStub createStub ("tok-r") 3 dbJan
    "alice@example.com" (by rfl) (by decide)

/-- C5.  Login fails 401 `Unauthorized` in three independent cases checked in
this order — unknown email, unverified user, rejected password — each by
itself (the later gates are unconstrained in the earlier cases, and the
earlier preconditions pass in the later ones); in every case the result
carries no tokens and the store (in particular the stored `refresh_token`)
is returned unchanged. -/
theorem login_unauthorized_gates
    (verify : String → String → Bool) (cA cR : String → String)
    (username password : String) (now : Nat) (db : DB) :
    (get_user_by_email username db = none →
      login verify cA cR username password now db =
        (Except.error (ApiError.unauthorized ("Invalid email")), db))
    ∧ (∀ u, get_user_by_email username db = some u → u.verification = false →
      login verify cA cR username password now db =
        (Except.error (ApiError.unauthorized ("Email not verification")), db))
    ∧ (∀ u, get_user_by_email username db = some u → u.verification = true →
      verify password u.password = false →
      login verify cA cR username password now db =
        (Except.error (ApiError.unauthorized ("Invalid password")), db)) := by
  refine ⟨?_, ?_, ?_⟩
  · intro h
    simp [login, h]
  · intro u hu hv
    simp [login, hu, hv]
  · intro u hu hv hp
    simp [login, hu, hv, hp]

/-- Witness for C5: an unknown email, the unverified Bella with the correct
password, and the verified Alice with a wrong password each fail with their
own 401, leaving the store unchanged. -/
theorem login_unauthorized_gates_witness :
    login verifyStub createStub createStub ("ghost@example.com") "pw" 0 sampleDB =
      (Except.error (ApiError.unauthorized ("Invalid email")), sampleDB)
    ∧ login verifyStub createStub createStub ("bella@example.com") "pw" 0 sampleDB =
      (Except.error (ApiError.unauthorized ("Email not verification")), sampleDB)
    ∧ login verifyStub createStub createStub ("alice@example.com") "wrong" 0 sampleDB =
      (Except.error (ApiError.unauthorized ("Invalid password")), sampleDB) :=
  ⟨(login_unauthorized_gates verifyStub createStub createStub ("ghost@example.com")
      "pw" 0 sampleDB).1 (by decide),
   (login_unauthorized_gates verifyStub createStub createStub ("bella@example.com")
      "pw" 0 sampleDB).2.1 userBella (by decide) (by decide),
   (login_unauthorized_gates verifyStub createStub createStub ("alice@example.com")
      "wrong" 0 sampleDB).2.2 userAlice (by decide) (by decide) (by decide)⟩

/-- C7.  Confirming the email of an already-verified user returns the
idempotent already-confirmed message and performs no state mutation: the
store — hence the user's `verification` flag and `updated_at` — is returned
unchanged (`verification_email` is never called on this path). -/
theorem confirmed_email_idempotent
    (getEmail : String → Except TokenError String) (token : String) (now : Nat)
    (db : DB) (email : String) (u : User)
    (hget : getEmail token = Except.ok email)
    (hu : get_user_by_email email db = some u)
    (hv : u.verification = true) :
    confirmed_email getEmail token now db =
      (Except.ok ("Your email is already confirmed"), db) := by
  simp [confirmed_email, hget, hu, hv]

/-- Witness for C7: re-confirming the verified Alice answers the idempotent
message with the store untouched. -/
theorem confirmed_email_idempotent_witness :
    confirmed_email getEmailStub ("tok-v") 9 sampleDB =
      (Except.ok ("Your email is already confirmed"), sampleDB) :=
  confirmed_email_idempotent getEmailStub ("tok-v") 9 sampleDB ("alice@example.com")
    userAlice (by rfl) (by decide) (by decide)

/-- C8.  The get-contact-by-id endpoint takes no identity at all (no bearer
token is required) and its query filters by id alone: every stored contact is
returned to any caller whatever its `user_id` is. -/
theorem get_contact_by_id_ignores_owner
    (db : DB) (c : Contact)
    (hids : (db.contacts.map Contact.id).Nodup) (hmem : c ∈ db.contacts) :
    get_contacts_by_id_route c.id db = Except.ok c := by
  have h := find?_key_of_nodup Contact.id db.contacts c hids hmem
  simp [get_contacts_by_id_route, get_contact_by_id, h]

/-- Witness for C8: Alice's contact (owned by user 1) is served by the
identity-free read endpoint. -/
theorem get_contact_by_id_ignores_owner_witness :
    get_contacts_by_id_route 10 sampleDB = Except.ok contactCarl :=
  get_contact_by_id_ignores_owner sampleDB contactCarl (by decide) (by decide)

/-- C3 (amended).  A token issued with scope A and decoded before its expiry
with any expected scope B ≠ A fails with `ScopeMismatch` — in particular an
unexpired access token is never accepted where a refresh token is expected,
nor vice versa. -/
theorem decode_wrong_scope_before_expiry
    (subject : String) (a b : Scope) (now ttl now2 : Nat)
    (hab : a ≠ b) (hexp : now2 < (issue subject a now ttl).exp) :
    decode (issue subject a now ttl) b now2 = Except.error TokenError.scopeMismatch := by
  have h1 : ¬ ((issue subject a now ttl).exp ≤ now2) := by omega
  have h2 : (issue subject a now ttl).scope ≠ b := hab
  rw [decode, if_neg h1, if_pos h2]

/-- Witness for C3: an access token still 590 ticks from expiry is rejected
with `ScopeMismatch` when decoded expecting refresh scope. -/
theorem decode_wrong_scope_before_expiry_witness :
    decode (issue ("u@example.com") Scope.access 0 600) Scope.refresh 10 =
      Except.error TokenError.scopeMismatch :=
  decode_wrong_scope_before_expiry ("u@example.com") Scope.access Scope.refresh 0 600 10
    (by decide) (by decide)

/-- Counterexample to C3 as stated: for a token issued with scope A that has
already expired, decoding with expected scope B ≠ A fails with
`ExpiredToken`, not `ScopeMismatch` — the codec checks expiry first (spec
sections 4.2 and 8: expiry wins regardless of scope correctness). -/
theorem decode_wrong_scope_after_expiry_cex :
    decode (issue ("u@example.com") Scope.access 0 10) Scope.refresh 20 =
      Except.error TokenError.expiredToken
    ∧ decode (issue ("u@example.com") Scope.access 0 10) Scope.refresh 20 ≠
      Except.error TokenError.scopeMismatch := by
  refine ⟨rfl, ?_⟩
  intro h
  rw [show decode (issue ("u@example.com") Scope.access 0 10) Scope.refresh 20 =
      Except.error TokenError.expiredToken from rfl] at h
  injection h with h2
  exact TokenError.noConfusion h2

/-- C4 (code evaluation).  The create-contact route persists the new contact
with `user_id` stamped from the acting identity, but its `finally` clause
unconditionally raises, so the handler answers 404 `Not authorized!` instead
of 201 with the created contact. -/
theorem create_contact_route_always_404
    (body : ContactInput) (user : User) (now : Nat) (db : DB)
    (hfresh : ∀ x ∈ db.contacts, x.id ≠ db.nextContactId) :
    (create_contact_route body user now db).1 =
      Except.error (ApiError.notFound ("Not authorized!"))
    ∧ (get_contact_by_id db.nextContactId (create_contact_route body user now db).2).map
        Contact.user_id = some (some user.id) := by
  constructor
  · rfl
  · have hnone : db.contacts.find? (fun x => decide (x.id = db.nextContactId)) = none := by
      rw [List.find?_eq_none]
      intro x hx
      simpa using hfresh x hx
    simp [create_contact_route, create_contact, get_contact_by_id, List.find?_append, hnone]

/-- Witness for C4: creating a contact as Alice commits row 11 owned by user
1, yet the route's answer is the 404. -/
theorem create_contact_route_always_404_witness :
    (create_contact_route bodyInput userAlice 5 sampleDB).1 =
      Except.error (ApiError.notFound ("Not authorized!"))
    ∧ (get_contact_by_id 11 (create_contact_route bodyInput userAlice 5 sampleDB).2).map
        Contact.user_id = some (some 1) :=
  create_contact_route_always_404 bodyInput userAlice 5 sampleDB (by decide)

/-- C6 (code evaluation).  The request-email route reads `user.verification`
before its `if user:` guard: an email matching no user raises an
`AttributeError` (a 500), revealing that the email does not exist, while an
existing user — verified or not — gets a 200 message.  The claimed uniform
200 acknowledgment therefore fails exactly on the unknown-email case. -/
theorem request_email_unknown_email_faults :
    request_email ("ghost@example.com") sampleDB =
      (Except.error
        (ApiError.fault ("AttributeError: NoneType has no attribute verification")),
       sampleDB)
    ∧ (request_email ("alice@example.com") sampleDB).1 =
        Except.ok ("Your email is already verification")
    ∧ (request_email ("bella@example.com") sampleDB).1 =
        Except.ok ("Check your email for confirmation.") :=
  ⟨rfl, rfl, rfl⟩

/-- Membership characterization of the per-contact birthday loop: when it
completes without a `ValueError`, its output holds a contact iff the input
held it with a birthday whose year-replaced date is 0–7 days from today. -/
lemma upcomingLoop_mem (today : Date) (cs : List Contact) (l : List Contact)
    (h : upcomingLoop today cs = Except.ok l) (c : Contact) :
    c ∈ l ↔ c ∈ cs ∧ ∃ b, c.birthday = some b ∧
      0 ≤ daysUntilBirthday today b ∧ daysUntilBirthday today b ≤ 7 := by
  induction cs generalizing l with
  | nil =>
    rw [upcomingLoop] at h
    injection h with h
    subst h
    simp
  | cons a rest ih =>
    rw [upcomingLoop] at h
    split at h
    next hb =>
      rw [ih l h]
      constructor
      · rintro ⟨hc, hP⟩
        exact ⟨List.mem_cons_of_mem _ hc, hP⟩
      · rintro ⟨hc, b, hb2, hw⟩
        rcases List.mem_cons.mp hc with rfl | hc'
        · rw [hb] at hb2
          cases hb2
        · exact ⟨hc', b, hb2, hw⟩
    next b0 hb =>
      split at h
      next hv =>
        split at h
        next e hrest =>
          cases h
        next tail hrest =>
          split at h
          next hw =>
            injection h with h
            subst h
            constructor
            · intro hcl
              rcases List.mem_cons.mp hcl with rfl | htail
              · exact ⟨List.mem_cons_self _ _, b0, hb, hw⟩
              · obtain ⟨hcr, hP⟩ := (ih tail hrest).mp htail
                exact ⟨List.mem_cons_of_mem _ hcr, hP⟩
            · rintro ⟨hcar, hP⟩
              rcases List.mem_cons.mp hcar with rfl | hcr
              · exact List.mem_cons_self _ _
              · exact List.mem_cons_of_mem _ ((ih tail hrest).mpr ⟨hcr, hP⟩)
          next hw =>
            injection h with h
            subst h
            constructor
            · intro hcl
              obtain ⟨hcr, hP⟩ := (ih tail hrest).mp hcl
              exact ⟨List.mem_cons_of_mem _ hcr, hP⟩
            · rintro ⟨hcar, b, hbb, hww⟩
              rcases List.mem_cons.mp hcar with rfl | hcr
              · rw [hb] at hbb
                injection hbb with hbb
                subst hbb
                exact absurd hww hw
              · exact (ih tail hrest).mpr ⟨hcr, b, hbb, hww⟩
      next hv =>
        cases h

/-- C10.  When the upcoming-birthday query completes, it returns exactly the
contacts with a non-null birthday whose date, with its year replaced by the
current year, lies between today and seven days from today inclusive
(`0 <= days_until_birthday <= 7`); a birthday early next calendar year
(e.g. early January queried in late December) yields a large negative
difference and is excluded. -/
theorem upcoming_birthdays_exact_window (today : Date) (db : DB) (l : List Contact)
    (h : get_contacts_with_upcoming_birthdays today db = Except.ok l) (c : Contact) :
    c ∈ l ↔ c ∈ db.contacts ∧ ∃ b, c.birthday = some b ∧
      0 ≤ daysUntilBirthday today b ∧ daysUntilBirthday today b ≤ 7 := by
  rw [get_contacts_with_upcoming_birthdays] at h
  rw [upcomingLoop_mem today _ l h c, List.mem_filter]
  constructor
  · rintro ⟨⟨hc, _⟩, hP⟩
    exact ⟨hc, hP⟩
  · rintro ⟨hc, b, hbb, hw⟩
    exact ⟨⟨hc, by simp [hbb]⟩, b, hbb, hw⟩

/-- Witness for C10: on 2023-12-28 the query over the store holding only the
2000-01-02-birthday contact returns the empty list, and the membership
characterization confirms the early-January contact is (rightly, per the
code) excluded even though its birthday is five days away in real time. -/
theorem upcoming_birthdays_exact_window_witness :
    contactJan ∈ ([] : List Contact) ↔
      contactJan ∈ dbJan.contacts ∧ ∃ b, contactJan.birthday = some b ∧
        0 ≤ daysUntilBirthday dateDec b ∧ daysUntilBirthday dateDec b ≤ 7 :=
  upcoming_birthdays_exact_window dateDec dbJan [] (by rfl) contactJan

end AddressBook
